import Mathlib

/-!
Shallow embedding of `src/poem/src/tera/middleware.rs`: the Tera templating
middleware adapter for the poem web framework.

The tera template engine and the host framework's request/response types are
external collaborators; the parts of them that the adapter touches are
modelled explicitly below.  Template parsing (`Tera::new`) depends on the
filesystem, so it is passed in as an explicit oracle argument
`teraNew : String → Except TeraError Tera`.  Process exit and printing to
standard output are modelled as explicit outcome data.  Mutation of the
per-request `Tera` clone and of the `Request` by transformers is modelled by
explicit state passing; `Endpoint::call` returns the (possibly updated)
endpoint alongside its result so that frame properties are expressible.
-/

namespace PoemTera

/-- Error type of the tera engine (`tera::Error`); the adapter only ever
formats it, so it is modelled by its message string. -/
abbrev TeraError := String

/-- Modelled from the spec: the compiled template set produced by the tera
engine ("Template set: the compiled collection of parsed template files"),
plus a mutable configuration overlay that transformers may change. -/
structure Tera where
  templates : List (String × String)
  config : List String
deriving DecidableEq, Repr

/-- Rust `Clone` for `Tera`: a value copy, the identity on pure values. -/
def Tera.clone (t : Tera) : Tera := t

/-- Modelled from the spec: the host framework's request object, exposing the
typed extension slot for `Tera` that the adapter populates ("the host request
object exposes a typed slot that the adapter populates and later code
reads"). -/
structure Request where
  path : String
  teraExt : Option Tera
deriving DecidableEq, Repr

/-- `req.extensions_mut().insert(tera)`: populate the typed `Tera` slot. -/
def Request.insertTeraExt (req : Request) (t : Tera) : Request :=
  { req with teraExt := some t }

/-- `req.extensions().get::<Tera>()`: read the typed `Tera` slot. -/
def Request.getTeraExt (req : Request) : Option Tera :=
  req.teraExt

/-- Modelled from the spec: the framework's error value carried by `Err`
responses; it records the HTTP status sent to the client. -/
structure PoemError where
  status : Nat
  message : String
deriving DecidableEq, Repr

/-- Modelled from the spec: poem's `InternalServerError` wrapper, which turns
an error into a "generic internal-server-error response" (HTTP 500). -/
def InternalServerError (e : TeraError) : PoemError :=
  { status := 500, message := e }

/-- `poem::Result<T>` = `Result<T, poem::Error>`. -/
abbrev PoemResult (α : Type) := Except PoemError α

/-- Modelled from the spec: poem's `Html<T>` response wrapper ("success
yields an HTML response body"). -/
structure Html (α : Type) where
  body : α
deriving DecidableEq, Repr

/-- Modelled from the spec: an HTTP response, reduced to the status code and
body that the claims mention. -/
structure Response where
  status : Nat
  body : String
deriving DecidableEq, Repr

/-- Modelled from the spec: responding with `Html<String>` produces an HTTP
200 response whose body is the wrapped string. -/
def Html.toResponse (h : Html String) : Response :=
  { status := 200, body := h.body }

/-- `pub type TeraTemplatingResult = tera::Result<String>;` -/
abbrev TeraTemplatingResult := Except TeraError String

/-- `impl IntoResult<Html<String>> for TeraTemplatingResult`.  The lines
printed by `println!("{err:?}")` are returned alongside the converted
result, in print order. -/
def TeraTemplatingResult.into_result (r : TeraTemplatingResult) :
    List String × PoemResult (Html String) :=
  ((match r with
    | .error err => [toString (repr err)]
    | .ok _ => []),
   (r.mapError InternalServerError).map Html.mk)

/-- `pub struct TeraTemplatingMiddleware { tera: Tera }` -/
structure TeraTemplatingMiddleware where
  tera : Tera
deriving DecidableEq, Repr

/-- Outcome of a constructor that may terminate the process: either the
constructed value, or process exit with the lines printed to standard output
and the exit code. -/
inductive StartupOutcome (α : Type) where
  | ok (value : α)
  | exited (printed : List String) (code : Nat)
deriving DecidableEq, Repr

/-- `TeraTemplatingMiddleware::from_glob`, parametrised by the `Tera::new`
oracle. -/
def TeraTemplatingMiddleware.from_glob
    (teraNew : String → Except TeraError Tera) (glob : String) :
    StartupOutcome TeraTemplatingMiddleware :=
  match teraNew glob with
  | .ok t => .ok { tera := t }
  | .error e => .exited ["Parsing error(s): " ++ e] 1

/-- `TeraTemplatingMiddleware::from_directory`, parametrised by the
`Tera::new` oracle; the glob is `format!("{template_directory}/**/*")`. -/
def TeraTemplatingMiddleware.from_directory
    (teraNew : String → Except TeraError Tera) (template_directory : String) :
    StartupOutcome TeraTemplatingMiddleware :=
  match teraNew (template_directory ++ "/**/*") with
  | .ok t => .ok { tera := t }
  | .error e => .exited ["Parsing error(s): " ++ e] 1

/-- `TeraTemplatingMiddleware::custom`. -/
def TeraTemplatingMiddleware.custom (tera : Tera) : TeraTemplatingMiddleware :=
  { tera := tera }

/-- `impl Default for TeraTemplatingMiddleware`. -/
def TeraTemplatingMiddleware.default
    (teraNew : String → Except TeraError Tera) :
    StartupOutcome TeraTemplatingMiddleware :=
  TeraTemplatingMiddleware.from_directory teraNew "templates"

/-- A transformer `fn(&mut Tera, &mut Request)`: modelled by explicit state
passing on the pair it may mutate. -/
abbrev Transformer := Tera → Request → Tera × Request

/-- `pub struct TeraTemplatingEndpoint<E>`; the inner endpoint `E` is
modelled by its (pure) `call` function. -/
structure TeraTemplatingEndpoint (α : Type) where
  tera : Tera
  inner : Request → PoemResult α
  transformers : List Transformer

/-- `impl Middleware<E> for TeraTemplatingMiddleware`: `transform` clones the
stored tera and starts with an empty transformer list. -/
def TeraTemplatingMiddleware.transform (m : TeraTemplatingMiddleware)
    (inner : Request → PoemResult α) : TeraTemplatingEndpoint α :=
  { tera := m.tera.clone, inner := inner, transformers := [] }

/-- The `for transformer in &self.transformers` loop in `call`: apply each
transformer, in order, to the tera/request state. -/
def applyTransformers (ts : List Transformer) (tera : Tera) (req : Request) :
    Tera × Request :=
  ts.foldl (fun s f => f s.1 s.2) (tera, req)

/-- `impl Endpoint for TeraTemplatingEndpoint<E>`: `call` clones the stored
tera, runs the transformers on the clone and the request, inserts the
resulting tera into the request's extensions, and invokes the inner
endpoint.  The endpoint value after the call is returned alongside the
result so that mutation of `self` would be expressible (the receiver is
`&self`, so the code never mutates it). -/
def TeraTemplatingEndpoint.call (ep : TeraTemplatingEndpoint α)
    (req : Request) : PoemResult α × TeraTemplatingEndpoint α :=
  let tera := ep.tera.clone
  let s := applyTransformers ep.transformers tera req
  let req := s.2.insertTeraExt s.1
  (ep.inner req, ep)

/-- The tera value that `call` inserts into this request's extension slot. -/
def TeraTemplatingEndpoint.requestTera (ep : TeraTemplatingEndpoint α)
    (req : Request) : Tera :=
  (applyTransformers ep.transformers ep.tera.clone req).1

/-- The request value that `call` passes to the inner endpoint. -/
def TeraTemplatingEndpoint.innerRequest (ep : TeraTemplatingEndpoint α)
    (req : Request) : Request :=
  let s := applyTransformers ep.transformers ep.tera.clone req
  s.2.insertTeraExt s.1

/-- `TeraTemplatingEndpoint::using`: push one transformer. -/
def TeraTemplatingEndpoint.using (ep : TeraTemplatingEndpoint α)
    (transformer : Transformer) : TeraTemplatingEndpoint α :=
  { ep with transformers := ep.transformers ++ [transformer] }

/-- Outcome of a `FromRequest` extractor whose body may panic: either the
`poem::Result` it returns, or a panic with the `expect` message. -/
inductive ExtractOutcome (α : Type) where
  | returned (r : PoemResult α)
  | panicked (msg : String)
deriving Repr

/-- `impl FromRequest for Tera`: read the `Tera` extension slot, `expect` it
to be populated, and clone it. -/
def Tera.from_request (req : Request) : ExtractOutcome Tera :=
  match req.getTeraExt with
  | some t => .returned (.ok t.clone)
  | none =>
      .panicked
        "To use the `Tera` extractor, the `TeraTemplating` endpoit is required."

/-! Concrete values used by the witnesses below. -/

/-- A sample compiled template set. -/
def sampleTera : Tera :=
  { templates := [("index.html.tera", "Hello \x7b\x7b name \x7d\x7d!")],
    config := [] }

/-- A sample request with an empty extension slot. -/
def sampleReq : Request :=
  { path := "/hello/world", teraExt := none }

/-- A second sample request. -/
def sampleReq2 : Request :=
  { path := "/hello/other", teraExt := none }

/-- A sample inner endpoint: answers 200 with the request path. -/
def sampleInner : Request → PoemResult Response :=
  fun req => .ok { status := 200, body := req.path }

/-- A sample endpoint with one transformer that mutates the tera config. -/
def sampleEp : TeraTemplatingEndpoint Response :=
  { tera := sampleTera,
    inner := sampleInner,
    transformers := [fun t r => ({ t with config := ["mutated"] }, r)] }

/-- A sample `Tera::new` oracle that fails on every glob. -/
def failingTeraNew : String → Except TeraError Tera :=
  fun glob => .error ("bad glob: " ++ glob)

/-- C1: converting an `Err` render result via `into_result` yields an
`Err` wrapping the error with `InternalServerError`, which carries HTTP
status 500, and the underlying error has been printed (it is the one line of
log output produced by the conversion). -/
theorem into_result_err_is_500_and_logged (e : TeraError) :
    (TeraTemplatingResult.into_result (.error e)).2 =
      .error (InternalServerError e) ∧
    (InternalServerError e).status = 500 ∧
    (TeraTemplatingResult.into_result (.error e)).1 = [toString (repr e)] :=
  ⟨rfl, rfl, rfl⟩

/-- C2: converting an `Ok s` render result via `into_result` yields
`Ok (Html s)` with nothing printed, and responding with `Html s` is an HTTP
200 response whose body is exactly `s`. -/
theorem into_result_ok_is_200_html (s : String) :
    (TeraTemplatingResult.into_result (.ok s)).2 = .ok (Html.mk s) ∧
    (TeraTemplatingResult.into_result (.ok s)).1 = [] ∧
    (Html.mk s).toResponse.status = 200 ∧
    (Html.mk s).toResponse.body = s :=
  ⟨rfl, rfl, rfl, rfl⟩

/-- C3: when template parsing fails, `from_glob` (and likewise
`from_directory`) prints the parse error and terminates the process with
exit status 1; the outcome carries no constructed middleware. -/
theorem from_glob_parse_error_exits
    (teraNew : String → Except TeraError Tera) (glob dir : String)
    (e e2 : TeraError) (h : teraNew glob = .error e)
    (h2 : teraNew (dir ++ "/**/*") = .error e2) :
    TeraTemplatingMiddleware.from_glob teraNew glob =
      .exited ["Parsing error(s): " ++ e] 1 ∧
    TeraTemplatingMiddleware.from_directory teraNew dir =
      .exited ["Parsing error(s): " ++ e2] 1 := by
  constructor
  · unfold TeraTemplatingMiddleware.from_glob
    rw [h]
  · unfold TeraTemplatingMiddleware.from_directory
    rw [h2]

/-- Witness for C3: a concrete failing oracle makes both constructors exit
with status 1 and the printed parse error. -/
theorem from_glob_parse_error_exits_witness :
    TeraTemplatingMiddleware.from_glob failingTeraNew "bad[" =
      .exited ["Parsing error(s): bad glob: bad["] 1 ∧
    TeraTemplatingMiddleware.from_directory failingTeraNew "templates" =
      .exited ["Parsing error(s): bad glob: templates/**/*"] 1 :=
  from_glob_parse_error_exits failingTeraNew "bad[" "templates"
    "bad glob: bad[" "bad glob: templates/**/*" rfl rfl

/-- C4: `call` leaves the endpoint itself unchanged (its stored `tera` and
`transformers` fields in particular), and the tera handed to the request is
computed by running the transformers on a clone of the stored tera, never on
the stored tera itself. -/
theorem call_clones_and_preserves_endpoint (α : Type)
    (ep : TeraTemplatingEndpoint α) (req : Request) :
    (ep.call req).2 = ep ∧
    (ep.call req).2.tera = ep.tera ∧
    (ep.call req).2.transformers = ep.transformers ∧
    ep.requestTera req =
      (applyTransformers ep.transformers (Tera.clone ep.tera) req).1 :=
  ⟨rfl, rfl, rfl, rfl⟩

/-- C5: requests do not observe each other's transformer mutations: the
outcome of `call` on one request, and in particular the tera it sees, is
unchanged by another request having been processed first on the same
endpoint. -/
theorem concurrent_calls_do_not_interfere (α : Type)
    (ep : TeraTemplatingEndpoint α) (r1 r2 : Request) :
    ((ep.call r1).2).call r2 = ep.call r2 ∧
    ((ep.call r2).2).call r1 = ep.call r1 ∧
    ((ep.call r1).2).requestTera r2 = ep.requestTera r2 ∧
    ((ep.call r2).2).requestTera r1 = ep.requestTera r1 :=
  ⟨rfl, rfl, rfl, rfl⟩

/-- C6: round-trip of the extension-injection contract: on the request that
`call` passes to the inner endpoint, the `Tera` extractor returns exactly
(a clone of) the tera value that `call` inserted, and cloning is the
identity on values. -/
theorem extension_injection_roundtrip (α : Type)
    (ep : TeraTemplatingEndpoint α) (req : Request) :
    Tera.from_request (ep.innerRequest req) =
      .returned (.ok (Tera.clone (ep.requestTera req))) ∧
    Tera.clone (ep.requestTera req) = ep.requestTera req ∧
    (ep.call req).1 = ep.inner (ep.innerRequest req) :=
  ⟨rfl, rfl, rfl⟩

/-- C7: `from_directory d` is the same function as
`from_glob (d ++ "/**/*")`: same constructed middleware on success, same
print-and-exit behaviour on failure, for every oracle and directory. -/
theorem from_directory_eq_from_glob
    (teraNew : String → Except TeraError Tera) (d : String) :
    TeraTemplatingMiddleware.from_directory teraNew d =
      TeraTemplatingMiddleware.from_glob teraNew (d ++ "/**/*") :=
  rfl

/-- C8: `using` appends the transformer to the registration list; `call`
folds the whole list, in order, over the cloned tera and the request (so a
newly registered transformer runs exactly once, after all earlier ones),
and the inner endpoint is invoked on the request whose extension slot
already holds the fully transformed tera. -/
theorem transformers_applied_in_order_before_inner (α : Type)
    (ep : TeraTemplatingEndpoint α) (req : Request) (f : Transformer)
    (t : Tera) (r : Request) :
    (ep.using f).transformers = ep.transformers ++ [f] ∧
    applyTransformers (ep.using f).transformers t r =
      (fun s => f s.1 s.2) (applyTransformers ep.transformers t r) ∧
    (ep.call req).1 = ep.inner (ep.innerRequest req) ∧
    (ep.innerRequest req).getTeraExt = some (ep.requestTera req) := by
  refine ⟨rfl, ?_, rfl, rfl⟩
  simp [TeraTemplatingEndpoint.using, applyTransformers, List.foldl_append]

/-- C9: the `Tera` extractor panics (with the `expect` message) whenever the
request's extension slot is empty, and returns `Ok` with the stored value
whenever the slot is populated — it never returns `Err`. -/
theorem from_request_panics_on_missing_extension (req : Request) :
    (req.teraExt = none →
      Tera.from_request req =
        .panicked
          "To use the `Tera` extractor, the `TeraTemplating` endpoit is required.") ∧
    (∀ t : Tera, req.teraExt = some t →
      Tera.from_request req = .returned (.ok t)) := by
  constructor
  · intro h
    unfold Tera.from_request Request.getTeraExt
    rw [h]
  · intro t h
    unfold Tera.from_request Request.getTeraExt
    rw [h]
    rfl

/-- Witness for C9: on a concrete request with an empty slot the extractor
panics; populating the slot makes it return the stored tera. -/
theorem from_request_panics_on_missing_extension_witness :
    Tera.from_request sampleReq =
      .panicked
        "To use the `Tera` extractor, the `TeraTemplating` endpoit is required." ∧
    Tera.from_request { sampleReq with teraExt := some sampleTera } =
      .returned (.ok sampleTera) :=
  ⟨(from_request_panics_on_missing_extension sampleReq).1 rfl,
   (from_request_panics_on_missing_extension
      { sampleReq with teraExt := some sampleTera }).2 sampleTera rfl⟩

/-- C10: `default` is exactly `from_directory "templates"`, hence parses the
glob `"templates/**/*"` and exits with status 1 on parse failure; and
`transform` always yields an endpoint whose transformer list is empty (and
whose tera is a clone of the middleware's). -/
theorem default_uses_templates_dir_and_transform_starts_empty
    (α : Type) (teraNew : String → Except TeraError Tera)
    (m : TeraTemplatingMiddleware) (inner : Request → PoemResult α) :
    TeraTemplatingMiddleware.default teraNew =
      TeraTemplatingMiddleware.from_directory teraNew "templates" ∧
    TeraTemplatingMiddleware.default teraNew =
      TeraTemplatingMiddleware.from_glob teraNew "templates/**/*" ∧
    (∀ e : TeraError, teraNew "templates/**/*" = .error e →
      TeraTemplatingMiddleware.default teraNew =
        .exited ["Parsing error(s): " ++ e] 1) ∧
    (m.transform inner).transformers = [] ∧
    (m.transform inner).tera = m.tera := by
  refine ⟨rfl, rfl, ?_, rfl, rfl⟩
  intro e h
  show TeraTemplatingMiddleware.from_glob teraNew "templates/**/*" = _
  unfold TeraTemplatingMiddleware.from_glob
  rw [h]

/-- Witness for C10: with a concrete failing oracle, `default` exits with
status 1 printing the parse error, and a concrete `transform` has an empty
transformer list. -/
theorem default_uses_templates_dir_witness :
    TeraTemplatingMiddleware.default failingTeraNew =
      .exited ["Parsing error(s): bad glob: templates/**/*"] 1 ∧
    ((TeraTemplatingMiddleware.custom sampleTera).transform
        sampleInner).transformers = [] :=
  ⟨(default_uses_templates_dir_and_transform_starts_empty Response
      failingTeraNew (TeraTemplatingMiddleware.custom sampleTera)
      sampleInner).2.2.1 "bad glob: templates/**/*" rfl,
   (default_uses_templates_dir_and_transform_starts_empty Response
      failingTeraNew (TeraTemplatingMiddleware.custom sampleTera)
      sampleInner).2.2.2.1⟩

end PoemTera
